import Mathlib

/-!
# Verification of the satrig rig-synchronization core

A shallow embedding of `satrig.py` — the Doppler conversion model
(`Satellite.doppler_*`), the Icom 821H frequency codec
(`Icom821H.get_freq`/`set_freq`), the `Rig` façade (frequency caches, the
leading-digit bank-exchange heuristic, zero-read protection, headless
degradation), the satellite/transponder selection commands and the
calculation tick of `Application._loop` — together with theorems settling
the specified properties.

Numeric values (Python ints and floats) are embedded as rationals `ℚ`;
frequencies decoded from the radio are naturals `ℕ`.
-/

/-! ## Doppler model (`class Satellite`) -/

/-- `Satellite.doppler_r`: the live Doppler ratio `1 + doppler100 / 100e6`,
where `doppler100` is the Doppler shift observed at a 100 MHz reference. -/
def doppler_ratio (doppler100 : ℚ) : ℚ := 1 + doppler100 / 100000000

/-- `Satellite.doppler_fsat_from_fobs(fobs, tx, r)`.  `live_r` stands for
`self.doppler_r`, substituted when the caller passes the default `r = 0`.
For receive (`tx = false`) the result is `fobs / r`, for transmit `fobs * r`. -/
def doppler_fsat_from_fobs (live_r fobs : ℚ) (tx : Bool) (r : ℚ) : ℚ :=
  let r := if r = 0 then live_r else r
  if tx then fobs * r else fobs / r

/-- `Satellite.doppler_fobs_from_fsat(fsat, tx, r)`.  `live_r` stands for
`self.doppler_r`, substituted when the caller passes the default `r = 0`.
For receive (`tx = false`) the result is `fsat * r`, for transmit `fsat / r`. -/
def doppler_fobs_from_fsat (live_r fsat : ℚ) (tx : Bool) (r : ℚ) : ℚ :=
  let r := if r = 0 then live_r else r
  if tx then fsat / r else fsat * r

/-! ## Frequency codec (`class Icom821H`) -/

/-- The ten decimal digits of `f"{f:010d}"`, most significant first.
Faithful for `f < 10^10`; Python would render more than ten digits beyond
that, which `set_freq` cannot pack into five bytes anyway. -/
def fmt010 (f : ℕ) : List ℕ :=
  [f / 1000000000 % 10, f / 100000000 % 10, f / 10000000 % 10, f / 1000000 % 10,
   f / 100000 % 10, f / 10000 % 10, f / 1000 % 10, f / 100 % 10, f / 10 % 10, f % 10]

/-- The digit-pair permutation `s[8] s[9] s[6] s[7] s[4] s[5] s[2] s[3] s[0] s[1]`
applied by `Icom821H.set_freq` to the padded decimal string and by
`Icom821H.get_freq` to the hex rendering of the five response bytes.
Anything that is not a ten-digit list decodes to the empty list (and hence,
below, to the sentinel frequency 0 — the `except` branch of `get_freq`). -/
def bcdSwap (s : List ℕ) : List ℕ :=
  match s with
  | [d0, d1, d2, d3, d4, d5, d6, d7, d8, d9] => [d8, d9, d6, d7, d4, d5, d2, d3, d0, d1]
  | _ => []

/-- `Icom821H.set_freq`: the ten BCD digit values packed (pairwise) into the
five frequency bytes sent after the `0x05` command byte. -/
def set_freq_digits (f : ℕ) : List ℕ := bcdSwap (fmt010 f)

/-- `int(...)` of a decimal digit string. -/
def digitsToNat (s : List ℕ) : ℕ := s.foldl (fun acc d => acc * 10 + d) 0

/-- `Icom821H.get_freq`: decode the ten BCD digit values carried by the
response into a frequency in Hz; a malformed response yields 0. -/
def get_freq (data : List ℕ) : ℕ := digitsToNat (bcdSwap data)

/-- Python's substring test `pat in hay` on character lists. -/
def strHasSub : List Char → List Char → Bool
  | [], pat => pat.isEmpty
  | c :: t, pat => pat.isPrefixOf (c :: t) || strHasSub t pat

/-- `Icom821H.set_mode`: the mode byte(s) sent after the `0x06` command byte
for a given mode string, or `none` when the mode is unrecognized and no
command is sent at all.  The source tests `"LSB" in mode` before
`"USB" in mode`, then `"CW"`, then `"FM"`. -/
def set_mode_bytes (mode : String) : Option (List ℕ) :=
  if strHasSub mode.data "LSB".data then some [0x00]
  else if strHasSub mode.data "USB".data then some [0x01]
  else if strHasSub mode.data "CW".data then some [0x03, 0x01]
  else if strHasSub mode.data "FM".data then some [0x05]
  else none

/-! ## `class Rig` -/

/-- Python `int(q)` on a numeric value: truncation toward zero, computed on
the reduced numerator/denominator. -/
def pyInt (q : ℚ) : ℤ :=
  if q < 0 then -(((-q.num).toNat / q.den : ℕ) : ℤ) else ((q.num.toNat / q.den : ℕ) : ℤ)

/-- The first character of Python's `str(value)` for a numeric value:
`'-'` for a negative number, otherwise the leading digit of the decimal
rendering — which, for the magnitudes the program handles (0, or at
least 1), is the leading digit of the truncated integer part. -/
def strHead (q : ℚ) : Char :=
  if q < 0 then '-' else (Nat.repr (pyInt q).toNat).front

/-- State of the `Rig` façade.  `connected` records whether the serial open in
`Rig.__init__` succeeded (`self.icom is not None`); `f_main` / `f_sub` are the
cached `_f_main` / `_f_sub` (the values the getters report); `mode_main` /
`mode_sub` model the mode bytes last accepted by each physical VFO — hardware
state changed by `Icom821H.set_mode`, which the Python object does not cache. -/
structure RigState where
  connected : Bool
  f_main : ℚ
  f_sub : ℚ
  mode_main : List ℕ
  mode_sub : List ℕ
deriving DecidableEq

/-- The `Rig.f_main` setter.  With a device attached, a differing leading
digit triggers `xchg_main_sub` — the hardware exchanges the two VFO banks
wholesale (frequency and mode) and the code records the old main cache as the
new sub cache — before the new value is written to the main VFO.  Headless,
only the cache is assigned (`self._f_main = value` runs unconditionally). -/
def rig_set_f_main (st : RigState) (value : ℚ) : RigState :=
  if st.connected then
    if strHead value ≠ strHead st.f_main then
      { st with f_main := value, f_sub := st.f_main,
                mode_main := st.mode_sub, mode_sub := st.mode_main }
    else
      { st with f_main := value }
  else
    { st with f_main := value }

/-- The `Rig.f_sub` setter, symmetric to `rig_set_f_main`. -/
def rig_set_f_sub (st : RigState) (value : ℚ) : RigState :=
  if st.connected then
    if strHead value ≠ strHead st.f_sub then
      { st with f_sub := value, f_main := st.f_sub,
                mode_main := st.mode_sub, mode_sub := st.mode_main }
    else
      { st with f_sub := value }
  else
    { st with f_sub := value }

/-- `Rig.set_mode_main`: with a device attached, send the mode command for
the main VFO; an unrecognized mode sends nothing.  Headless, a no-op. -/
def rig_set_mode_main (st : RigState) (mode : String) : RigState :=
  if st.connected then
    match set_mode_bytes mode with
    | some md => { st with mode_main := md }
    | none => st
  else st

/-- `Rig.set_mode_sub`, as `rig_set_mode_main` for the sub VFO. -/
def rig_set_mode_sub (st : RigState) (mode : String) : RigState :=
  if st.connected then
    match set_mode_bytes mode with
    | some md => { st with mode_sub := md }
    | none => st
  else st

/-- `Rig.read`: `hm` / `hs` are the two `get_freq` results decoded from the
hardware (main first, then sub).  A zero (failed/malformed) read, or a read
equal to `int(cache)`, leaves the corresponding cache untouched — the latter
to preserve the cache's fractional part.  Headless, a no-op. -/
def rig_read (st : RigState) (hm hs : ℕ) : RigState :=
  if st.connected then
    let st1 := if 0 < hm ∧ pyInt st.f_main ≠ (hm : ℤ) then
        { st with f_main := (hm : ℚ) } else st
    if 0 < hs ∧ pyInt st1.f_sub ≠ (hs : ℤ) then
      { st1 with f_sub := (hs : ℚ) } else st1
  else st

/-- `Rig.__init__` when `serial.Serial` raises `SerialException`:
`self.icom = None`, both caches zeroed, and the initial `self.read()` is a
no-op.  The mode fields are the untouched (unknown) hardware modes. -/
def rig_init_no_hw : RigState :=
  { connected := false, f_main := 0, f_sub := 0, mode_main := [], mode_sub := [] }

/-- A frequency write or a hardware read issued against the `Rig` façade. -/
inductive RigOp
  | setMain (v : ℚ)
  | setSub (v : ℚ)
  | readHw (hm hs : ℕ)

/-- Run one `RigOp`. -/
def runRigOp (st : RigState) : RigOp → RigState
  | RigOp.setMain v => rig_set_f_main st v
  | RigOp.setSub v => rig_set_f_sub st v
  | RigOp.readHw hm hs => rig_read st hm hs

/-- Run a sequence of `RigOp`s left to right. -/
def runRigOps (st : RigState) : List RigOp → RigState
  | [] => st
  | op :: ops => runRigOps (runRigOp st op) ops

/-! ## Transponders and the tune command -/

/-- A transponder record as built by `Satellite._build_trsp_list`:
`f_dwn` / `f_up` are the (integer) downlink/uplink center frequencies in Hz,
`f_up = 0` meaning no uplink, with the passband widths in the `_delta`
fields. -/
structure Trsp where
  name : String
  inverting : Bool
  mode : String
  f_dwn : ℤ
  f_up : ℤ
  f_dwn_delta : ℤ
  f_up_delta : ℤ
deriving DecidableEq

/-- The key `x` (tune to current transponder) handler of `Application._loop`:
set the sub VFO to the Doppler-shifted downlink, then — only when an uplink
exists (`f_up > 0`) — the main VFO to the Doppler-shifted uplink, then apply
the transponder mode to the sub VFO (falling back to `USB` for a mode outside
`USB/LSB/CW/FM`), and finally the main-VFO mode: for an inverting transponder
`USB`/`LSB` are swapped and other modes send nothing, for a non-inverting
transponder the transponder mode itself.  `live_r` is the satellite's current
`doppler_r`, reaching the conversions through their `r = 0` default. -/
def tune_trsp (live_r : ℚ) (t : Trsp) (st : RigState) : RigState :=
  let st1 := rig_set_f_sub st (doppler_fobs_from_fsat live_r (t.f_dwn : ℚ) false 0)
  let st2 := if 0 < t.f_up then
      rig_set_f_main st1 (doppler_fobs_from_fsat live_r (t.f_up : ℚ) true 0)
    else st1
  let st3 := if t.mode = "USB" ∨ t.mode = "LSB" ∨ t.mode = "CW" ∨ t.mode = "FM" then
      rig_set_mode_sub st2 t.mode
    else rig_set_mode_sub st2 "USB"
  if t.inverting then
    if t.mode = "USB" then rig_set_mode_main st3 "LSB"
    else if t.mode = "LSB" then rig_set_mode_main st3 "USB"
    else st3
  else rig_set_mode_main st3 t.mode

/-! ## The calculation tick of `Application._loop` -/

/-- The Engine state carried across calculation ticks by `Application._loop`:
the rig frequency caches `rig.f_main` / `rig.f_sub` as the loop sees them
when rig control runs (after the tick's `rig.read()`, and possibly changed
since the previous tick by the operator), the previous-tick snapshots
`f_main_old` / `f_sub_old` saved at the end of the previous tick, and the
baseline Doppler ratio `r_old`. -/
structure EngineState where
  f_main : ℚ
  f_sub : ℚ
  f_main_old : ℚ
  f_sub_old : ℚ
  r_old : ℚ
deriving DecidableEq

/-- The tick's recomputed target for one VFO: the observed frequency mapped
to the satellite at the baseline ratio `r_old` and mapped back at the live
ratio `r_live` (the inner call passes `r = r_old` explicitly, the outer call
uses the `r = 0` default, i.e. the live ratio). -/
def tick_target (r_live r_old f : ℚ) (tx : Bool) : ℚ :=
  doppler_fobs_from_fsat r_live (doppler_fsat_from_fobs r_live f tx r_old) tx 0

/-- The tick's correction trigger: either recomputed target differs from the
current rig frequency by at least the threshold `f_th = 10` Hz. -/
def tick_hot (r_live : ℚ) (st : EngineState) : Prop :=
  10 ≤ |st.f_main - tick_target r_live st.r_old st.f_main true| ∨
  10 ≤ |st.f_sub - tick_target r_live st.r_old st.f_sub false|

instance (r_live : ℚ) (st : EngineState) : Decidable (tick_hot r_live st) := by
  rw [tick_hot]; exact inferInstance

/-- One calculation tick of `Application._loop` (the rig-control block plus
the end-of-tick snapshot saves), over the headless rig where a frequency
assignment updates the cache directly.  `engaged` is `self.is_engaged` and
`r_live` the satellite's `doppler_r` after `current_sat.update()`.  Engaged,
when `tick_hot` triggers, each VFO whose frequency changed since the previous
tick (`f_main_changed` / `f_sub_changed`) keeps its dialed value and the other
is set to its recomputed target, and the baseline ratio advances to `r_live`;
below threshold nothing is touched.  Disengaged, only the baseline ratio
advances.  Either way the final rig frequencies are saved as the next tick's
`f_main_old` / `f_sub_old`. -/
def calc_tick (engaged : Bool) (r_live : ℚ) (st : EngineState) : EngineState :=
  if engaged then
    if tick_hot r_live st then
      let f_main' := if st.f_main ≠ st.f_main_old then st.f_main
                     else tick_target r_live st.r_old st.f_main true
      let f_sub' := if st.f_sub ≠ st.f_sub_old then st.f_sub
                    else tick_target r_live st.r_old st.f_sub false
      { f_main := f_main', f_sub := f_sub',
        f_main_old := f_main', f_sub_old := f_sub', r_old := r_live }
    else
      { st with f_main_old := st.f_main, f_sub_old := st.f_sub }
  else
    { st with r_old := r_live, f_main_old := st.f_main, f_sub_old := st.f_sub }

/-! ## Satellite/transponder selection (`class Application`) -/

/-- The application state the selection commands touch.  Each satellite is
represented by its transponder list; `current_sat` is the index of the
currently selected satellite (the Python code stores the object and recovers
the index with `list.index`).  Integer indices use `ℤ` with `Int.emod`, which
agrees with Python's `%` for a positive modulus. -/
structure AppState where
  satellites : List (List Trsp)
  current_sat : ℤ
  current_trsp : ℤ
  is_engaged : Bool

/-- `Application._next_sat`: advance the satellite index modulo the number of
satellites, reset the transponder index and disengage. -/
def next_sat (st : AppState) : AppState :=
  { st with current_sat := (st.current_sat + 1) % (st.satellites.length : ℤ),
            current_trsp := 0, is_engaged := false }

/-- `Application._previous_sat`: step the satellite index back modulo the
number of satellites, reset the transponder index and disengage. -/
def previous_sat (st : AppState) : AppState :=
  { st with current_sat := (st.current_sat - 1) % (st.satellites.length : ℤ),
            current_trsp := 0, is_engaged := false }

/-- `self.current_sat.trsp`, the transponder list of the selected satellite. -/
def current_trsp_list (st : AppState) : List Trsp :=
  st.satellites.getD st.current_sat.toNat []

/-- `Application._next_trsp`: cycle the transponder index forward modulo the
transponder count; nothing else is touched. -/
def next_trsp (st : AppState) : AppState :=
  { st with current_trsp := (st.current_trsp + 1) % ((current_trsp_list st).length : ℤ) }

/-- `Application._previous_trsp`: cycle the transponder index backward modulo
the transponder count; nothing else is touched. -/
def previous_trsp (st : AppState) : AppState :=
  { st with current_trsp := (st.current_trsp - 1) % ((current_trsp_list st).length : ℤ) }

/-- `Application._toggle_engage`. -/
def toggle_engage (st : AppState) : AppState :=
  { st with is_engaged := !st.is_engaged }

/-! ## Concrete records used in scenarios -/

/-- An FM, non-inverting transponder with downlink center 145 900 000 Hz and
no uplink (`f_up = 0`). -/
def fmTrsp : Trsp := ⟨"FM transponder", false, "FM", 145900000, 0, 0, 0⟩

/-- A second transponder, to form a two-transponder satellite. -/
def linTrsp : Trsp := ⟨"Linear transponder", true, "USB", 435300000, 145900000, 0, 0⟩

/-! ## Helper lemmas on the calculation tick -/

/-- An engaged tick below threshold only refreshes the previous-tick
snapshots. -/
theorem calc_tick_cold (r_live : ℚ) (st : EngineState) (h : ¬ tick_hot r_live st) :
    calc_tick true r_live st = { st with f_main_old := st.f_main, f_sub_old := st.f_sub } := by
  rw [calc_tick]
  simp [h]

/-- An engaged tick at or above threshold writes each unchanged VFO's
recomputed target, keeps a manually changed VFO at its dialed value, advances
the baseline ratio to the live ratio, and snapshots the final frequencies. -/
theorem calc_tick_hot_eq (r_live : ℚ) (st : EngineState) (h : tick_hot r_live st) :
    calc_tick true r_live st =
      { f_main := if st.f_main ≠ st.f_main_old then st.f_main
                  else tick_target r_live st.r_old st.f_main true,
        f_sub := if st.f_sub ≠ st.f_sub_old then st.f_sub
                 else tick_target r_live st.r_old st.f_sub false,
        f_main_old := if st.f_main ≠ st.f_main_old then st.f_main
                      else tick_target r_live st.r_old st.f_main true,
        f_sub_old := if st.f_sub ≠ st.f_sub_old then st.f_sub
                     else tick_target r_live st.r_old st.f_sub false,
        r_old := r_live } := by
  rw [calc_tick]
  simp [h]

/-! ## Claims -/

/-- C1 (amended): while engaged, on each calculation tick, if either computed
target frequency differs from its current rig value by at least 10 Hz the
Engine writes both corrections — skipping any VFO whose frequency changed
since the previous tick — and advances the baseline ratio `r_old` to the live
ratio; if both differences are below 10 Hz the Engine leaves both frequencies
AND the baseline ratio untouched (the baseline does not advance in that
case). -/
theorem engaged_tick_threshold_behaviour (r_live : ℚ) (st : EngineState) :
    ((calc_tick true r_live st).r_old =
       if tick_hot r_live st then r_live else st.r_old) ∧
    ((calc_tick true r_live st).f_main =
       if tick_hot r_live st then
         (if st.f_main ≠ st.f_main_old then st.f_main
          else tick_target r_live st.r_old st.f_main true)
       else st.f_main) ∧
    ((calc_tick true r_live st).f_sub =
       if tick_hot r_live st then
         (if st.f_sub ≠ st.f_sub_old then st.f_sub
          else tick_target r_live st.r_old st.f_sub false)
       else st.f_sub) := by
  by_cases h : tick_hot r_live st
  · rw [calc_tick_hot_eq r_live st h]
    simp [h]
  · rw [calc_tick_cold r_live st h]
    simp [h]

/-- C1 counterexample: an engaged tick whose two recomputed targets are both
within 10 Hz of the current rig frequencies (baseline ratio 1, live ratio
1 + 1e-8, main 435 MHz, sub 145 MHz, both unchanged since the previous tick)
does NOT advance the baseline ratio to the live ratio, contradicting the
claim's below-threshold clause. -/
theorem engaged_tick_below_threshold_cex :
    (calc_tick true (100000001/100000000)
        ⟨435000000, 145000000, 435000000, 145000000, 1⟩).r_old ≠ 100000001/100000000 := by
  have h : ¬ tick_hot (100000001/100000000)
      ⟨435000000, 145000000, 435000000, 145000000, 1⟩ := by
    rw [tick_hot]
    push_neg
    constructor <;>
      · rw [tick_target, doppler_fobs_from_fsat, doppler_fsat_from_fobs, abs_sub_lt_iff]
        constructor <;> norm_num
  rw [calc_tick_cold _ _ h]
  norm_num

/-- C3 (amended): the baseline ratio `r_old` is advanced to the live ratio
while engaged exactly when the 10 Hz threshold condition triggers — even when
both frequency writes are skipped because both VFOs changed since the
previous tick, so no correction is actually written — and on every
calculation tick while disengaged. -/
theorem baseline_ratio_update_rule (engaged : Bool) (r_live : ℚ) (st : EngineState) :
    (calc_tick engaged r_live st).r_old =
      if engaged then (if tick_hot r_live st then r_live else st.r_old) else r_live := by
  cases engaged
  · rw [calc_tick]
    simp
  · by_cases h : tick_hot r_live st
    · rw [calc_tick_hot_eq _ _ h]
      simp [h]
    · rw [calc_tick_cold _ _ h]
      simp [h]

/-- C3 counterexample: an engaged tick in which both VFOs changed since the
previous tick (so neither frequency is written — both keep their dialed
values) still advances the baseline ratio from 1 to the live ratio
10001/10000, because the threshold condition triggered; so `r_old` is updated
at a moment when no correction is actually written and tracking is engaged. -/
theorem baseline_advance_without_write_cex :
    (calc_tick true (10001/10000)
        ⟨435001000, 145001000, 435000000, 145000000, 1⟩).f_main = 435001000 ∧
    (calc_tick true (10001/10000)
        ⟨435001000, 145001000, 435000000, 145000000, 1⟩).f_sub = 145001000 ∧
    (calc_tick true (10001/10000)
        ⟨435001000, 145001000, 435000000, 145000000, 1⟩).r_old = 10001/10000 ∧
    ((10001 : ℚ)/10000) ≠ 1 := by
  have h : tick_hot (10001/10000) ⟨435001000, 145001000, 435000000, 145000000, 1⟩ := by
    rw [tick_hot]
    left
    rw [tick_target, doppler_fobs_from_fsat, doppler_fsat_from_fobs, le_abs]
    left
    norm_num
  rw [calc_tick_hot_eq _ _ h]
  norm_num

/-- C4: if, while engaged, the `f_main` seen at the start of a tick differs
from the `f_main_old` recorded at the end of the previous tick, that tick
performs no write to `f_main` (it keeps its dialed value), while `f_sub` —
unchanged since the previous tick — is still corrected normally on that same
tick: it is set to its recomputed target exactly when the 10 Hz threshold
condition triggers. -/
theorem manual_override_skips_f_main (r_live : ℚ) (st : EngineState)
    (hmain : st.f_main ≠ st.f_main_old) (hsub : st.f_sub = st.f_sub_old) :
    (calc_tick true r_live st).f_main = st.f_main ∧
    (calc_tick true r_live st).f_sub =
      (if tick_hot r_live st then tick_target r_live st.r_old st.f_sub false
       else st.f_sub) := by
  by_cases h : tick_hot r_live st
  · rw [calc_tick_hot_eq _ _ h]
    simp [h, hmain, hsub]
  · rw [calc_tick_cold _ _ h]
    simp [h]

/-- Witness for C4 at a concrete engaged tick: main dialed from 435 000 000
to 435 001 000 since the previous tick, sub unchanged at 145 000 000,
baseline ratio 1, live ratio 10001/10000. -/
theorem manual_override_skips_f_main_witness :
    (435001000 : ℚ) ≠ 435000000 ∧ (145000000 : ℚ) = 145000000 ∧
    (calc_tick true (10001/10000)
        ⟨435001000, 145000000, 435000000, 145000000, 1⟩).f_main = 435001000 ∧
    (calc_tick true (10001/10000)
        ⟨435001000, 145000000, 435000000, 145000000, 1⟩).f_sub =
      (if tick_hot (10001/10000) ⟨435001000, 145000000, 435000000, 145000000, 1⟩ then
         tick_target (10001/10000) 1 145000000 false
       else 145000000) :=
  ⟨by norm_num, rfl,
   manual_override_skips_f_main (10001/10000)
     ⟨435001000, 145000000, 435000000, 145000000, 1⟩ (by norm_num) rfl⟩

/-- C2 (amended): the satellite-selection commands (next/previous satellite)
always set the engaged flag to false and reset the transponder index to 0,
regardless of prior state; the transponder-selection commands (next/previous
transponder) only step the transponder index modulo the transponder count and
leave the engaged flag (and the satellite selection) unchanged. -/
theorem selection_commands_behaviour (st : AppState) :
    (next_sat st).is_engaged = false ∧ (next_sat st).current_trsp = 0 ∧
    (previous_sat st).is_engaged = false ∧ (previous_sat st).current_trsp = 0 ∧
    (next_trsp st).is_engaged = st.is_engaged ∧
    (next_trsp st).current_sat = st.current_sat ∧
    (next_trsp st).current_trsp =
      (st.current_trsp + 1) % ((current_trsp_list st).length : ℤ) ∧
    (previous_trsp st).is_engaged = st.is_engaged ∧
    (previous_trsp st).current_sat = st.current_sat ∧
    (previous_trsp st).current_trsp =
      (st.current_trsp - 1) % ((current_trsp_list st).length : ℤ) :=
  ⟨rfl, rfl, rfl, rfl, rfl, rfl, rfl, rfl, rfl, rfl⟩

/-- C2 counterexample: with one satellite carrying two transponders,
transponder index 0 and tracking engaged, the next-transponder command leaves
the engaged flag true and moves the transponder index to 1 — it neither
disengages nor resets the index to 0. -/
theorem trsp_selection_keeps_engaged_cex :
    ¬ ((next_trsp ⟨[[fmTrsp, linTrsp]], 0, 0, true⟩).is_engaged = false ∧
       (next_trsp ⟨[[fmTrsp, linTrsp]], 0, 0, true⟩).current_trsp = 0) := by
  decide

/-- Any operation sequence leaves a headless rig headless. -/
theorem runRigOps_headless (st : RigState) (h : st.connected = false) :
    ∀ ops, (runRigOps st ops).connected = false := by
  intro ops
  induction ops generalizing st with
  | nil => exact h
  | cons op ops ih =>
    rw [runRigOps]
    apply ih
    cases op <;> simp [runRigOp, rig_set_f_main, rig_set_f_sub, rig_read, h]

/-- C5 (amended): when the serial transport cannot be opened the Rig degrades
to a stub with no hardware I/O: it initially reports frequency zero on both
VFOs, hardware reads leave the reported values unchanged, mode commands do
nothing, and it stays headless across every operation sequence; frequency
writes, however, DO update the reported (cached) values — they are accepted
into the cache without any hardware effect. -/
theorem headless_rig_behaviour :
    rig_init_no_hw.connected = false ∧
    rig_init_no_hw.f_main = 0 ∧ rig_init_no_hw.f_sub = 0 ∧
    ∀ st : RigState, st.connected = false →
      (∀ hm hs, rig_read st hm hs = st) ∧
      (∀ v, rig_set_f_main st v = { st with f_main := v } ∧
            rig_set_f_sub st v = { st with f_sub := v }) ∧
      (∀ mode, rig_set_mode_main st mode = st ∧ rig_set_mode_sub st mode = st) ∧
      (∀ ops, (runRigOps st ops).connected = false) := by
  refine ⟨rfl, rfl, rfl, fun st hst => ⟨?_, ?_, ?_, runRigOps_headless st hst⟩⟩
  · intro hm hs
    rw [rig_read]
    simp [hst]
  · intro v
    exact ⟨by simp [rig_set_f_main, hst], by simp [rig_set_f_sub, hst]⟩
  · intro mode
    exact ⟨by simp [rig_set_mode_main, hst], by simp [rig_set_mode_sub, hst]⟩

/-- Witness for C5 (amended) on the failed-open rig itself: a hardware read
is a no-op. -/
theorem headless_rig_behaviour_witness :
    rig_read rig_init_no_hw 3 7 = rig_init_no_hw :=
  (headless_rig_behaviour.2.2.2 rig_init_no_hw rfl).1 3 7

/-- C5 counterexample: after a failed open, a single write of 145 000 000 Hz
to `f_main` changes the reported main frequency away from zero — the stub
does not "accept writes without effect" on the reported values. -/
theorem headless_rig_write_changes_value_cex :
    (runRigOps rig_init_no_hw [RigOp.setMain 145000000]).f_main ≠ 0 := by
  decide

/-- C6: `Rig.read` never overwrites a cached frequency with the zero
sentinel: whichever hardware read decodes to 0 (failed or malformed), the
corresponding cached frequency after the read equals the cached frequency
before it, for every rig state. -/
theorem read_zero_preserves_cache (st : RigState) (hm hs : ℕ) :
    (hm = 0 → (rig_read st hm hs).f_main = st.f_main) ∧
    (hs = 0 → (rig_read st hm hs).f_sub = st.f_sub) := by
  constructor
  · rintro rfl
    rw [rig_read]
    split_ifs <;> simp_all [apply_ite RigState.f_main]
  · rintro rfl
    rw [rig_read]
    split_ifs <;> simp_all [apply_ite RigState.f_sub]

/-- Witness for C6: a connected rig caching 5 / 7 Hz, both hardware reads
decoding to 0: both caches survive. -/
theorem read_zero_preserves_cache_witness :
    (rig_read ⟨true, 5, 7, [], []⟩ 0 0).f_main = 5 ∧
    (rig_read ⟨true, 5, 7, [], []⟩ 0 0).f_sub = 7 :=
  ⟨(read_zero_preserves_cache ⟨true, 5, 7, [], []⟩ 0 0).1 rfl,
   (read_zero_preserves_cache ⟨true, 5, 7, [], []⟩ 0 0).2 rfl⟩

/-- Evaluation of the tune command on `fmTrsp` at live ratio 1.00002, for any
connected rig whose sub-VFO cache starts with digit 1 (so no bank exchange is
triggered): the sub VFO is set to 145 900 000 · 1.00002 = 145 902 918 Hz, both
VFO modes are set to FM, and the main frequency is untouched. -/
theorem tune_fm_eval (st : RigState) (hconn : st.connected = true)
    (hdig : strHead st.f_sub = '1') :
    tune_trsp (100002/100000) fmTrsp st =
      { st with f_sub := 145902918, mode_sub := [5], mode_main := [5] } := by
  have hv : doppler_fobs_from_fsat (100002/100000) ((145900000 : ℤ) : ℚ) false 0
      = 145902918 := by
    rw [doppler_fobs_from_fsat]
    norm_num
  have hb : set_mode_bytes "FM" = some [5] := by decide
  have hhead : strHead (145902918 : ℚ) = '1' := by decide
  have e1 : rig_set_f_sub st (145902918 : ℚ) = { st with f_sub := 145902918 } := by
    rw [rig_set_f_sub]
    simp [hconn, hhead, hdig]
  have e2 : rig_set_mode_sub { st with f_sub := (145902918 : ℚ) } "FM"
      = { st with f_sub := 145902918, mode_sub := [5] } := by
    rw [rig_set_mode_sub]
    simp [hconn, hb]
  have e3 : rig_set_mode_main { st with f_sub := (145902918 : ℚ), mode_sub := [5] } "FM"
      = { st with f_sub := 145902918, mode_sub := [5], mode_main := [5] } := by
    rw [rig_set_mode_main]
    simp [hconn, hb]
  simp only [tune_trsp, fmTrsp]
  rw [hv, e1]
  norm_num
  rw [e2, e3]

/-- C7 (amended): tuning to a non-inverting transponder with downlink center
145 900 000 Hz, no uplink (`f_up = 0`) and mode FM, at live Doppler ratio
1.00002, sets the sub VFO to 145 900 000 · 1.00002 = 145 902 918 Hz and the
sub-VFO mode to FM, and leaves the main-VFO frequency unmodified — but it
does NOT leave the main VFO untouched: the main-VFO mode is also set to FM,
because the tune handler applies the transponder mode to both VFOs. -/
theorem tune_fm_scenario (st : RigState) (hconn : st.connected = true)
    (hdig : strHead st.f_sub = '1') :
    tune_trsp (100002/100000) fmTrsp st =
      { st with f_sub := 145902918, mode_sub := [5], mode_main := [5] } :=
  tune_fm_eval st hconn hdig

/-- Witness for C7 (amended) on a concrete connected rig (main at 435 MHz in
USB, sub at 145.8 MHz in USB). -/
theorem tune_fm_scenario_witness :
    (⟨true, 435000000, 145800000, [1], [1]⟩ : RigState).connected = true ∧
    strHead (⟨true, 435000000, 145800000, [1], [1]⟩ : RigState).f_sub = '1' ∧
    tune_trsp (100002/100000) fmTrsp ⟨true, 435000000, 145800000, [1], [1]⟩ =
      ⟨true, 435000000, 145902918, [5], [5]⟩ :=
  ⟨rfl, by decide, tune_fm_scenario ⟨true, 435000000, 145800000, [1], [1]⟩ rfl (by decide)⟩

/-- C7 counterexample: on a connected rig whose main VFO is in USB (mode byte
0x01), tuning to the FM transponder of the claimed scenario changes the
main-VFO mode (to FM, byte 0x05) — the main VFO is NOT left unmodified as the
claim states. -/
theorem tune_fm_sets_main_mode_cex :
    (tune_trsp (100002/100000) fmTrsp ⟨true, 435000000, 145800000, [1], [1]⟩).mode_main
      ≠ (⟨true, 435000000, 145800000, [1], [1]⟩ : RigState).mode_main := by
  rw [tune_fm_eval ⟨true, 435000000, 145800000, [1], [1]⟩ rfl (by decide)]
  decide

/-- C8: for every satellite frequency, every ratio `r > 0` and both `tx`
directions, converting a satellite frequency to an observed frequency and
back at the same explicitly supplied ratio is the identity — the two Doppler
conversions are exact inverses for fixed `r` (the live ratio `live_r` is
irrelevant because a nonzero `r` bypasses the `r = 0` default). -/
theorem doppler_round_trip (live_r f_sat r : ℚ) (tx : Bool) (hr : 0 < r) :
    doppler_fsat_from_fobs live_r (doppler_fobs_from_fsat live_r f_sat tx r) tx r
      = f_sat := by
  have hr0 : r ≠ 0 := ne_of_gt hr
  cases tx <;>
    simp [doppler_fsat_from_fobs, doppler_fobs_from_fsat, hr0,
      mul_div_cancel_right₀, div_mul_cancel₀]

/-- Witness for C8 at `f_sat` = 145 900 000 Hz, `r` = 1.00002, `tx` = true. -/
theorem doppler_round_trip_witness :
    (0 : ℚ) < 100002/100000 ∧
    doppler_fsat_from_fobs 1
      (doppler_fobs_from_fsat 1 145900000 true (100002/100000)) true (100002/100000)
      = 145900000 :=
  ⟨by norm_num, doppler_round_trip 1 145900000 (100002/100000) true (by norm_num)⟩

/-- C9: for every integer frequency `f` with `0 ≤ f < 10^10`, applying
`set_freq`'s digit-pair byte-reversal encoding and then `get_freq`'s
digit-pair decoding yields `f` again — the digit-pair permutation is an
involution on padded ten-digit values. -/
theorem bcd_digit_round_trip (f : ℕ) (h : f < 10000000000) :
    get_freq (set_freq_digits f) = f := by
  simp only [get_freq, set_freq_digits, bcdSwap, fmt010, digitsToNat, List.foldl]
  omega

/-- Witness for C9 at 145 900 000 Hz. -/
theorem bcd_digit_round_trip_witness :
    145900000 < 10000000000 ∧ get_freq (set_freq_digits 145900000) = 145900000 :=
  ⟨by decide, bcd_digit_round_trip 145900000 (by decide)⟩

/-- C10: on a connected rig, assigning a main frequency whose leading decimal
digit differs from the cached main frequency's leading digit triggers the
main/sub bank exchange and overwrites the cached sub frequency with the
previous main value (the two hardware banks, modes included, are swapped
before the write), and symmetrically an `f_sub` write with a differing
leading digit overwrites the cached main frequency with the previous sub
value — so a frequency write to one VFO can change the other VFO. -/
theorem cross_vfo_clobber (st : RigState) (v w : ℚ) (hconn : st.connected = true)
    (hv : strHead v ≠ strHead st.f_main) (hw : strHead w ≠ strHead st.f_sub) :
    rig_set_f_main st v =
      { st with f_main := v, f_sub := st.f_main,
                mode_main := st.mode_sub, mode_sub := st.mode_main } ∧
    rig_set_f_sub st w =
      { st with f_sub := w, f_main := st.f_sub,
                mode_main := st.mode_sub, mode_sub := st.mode_main } := by
  constructor
  · rw [rig_set_f_main]
    simp [hconn, hv]
  · rw [rig_set_f_sub]
    simp [hconn, hw]

/-- Witness for C10: a connected rig with main at 145 MHz and sub at 435 MHz;
writing 435 MHz to main (leading digit 4 ≠ 1) moves the old main into the sub
cache, and writing 145 MHz to sub (leading digit 1 ≠ 4) moves the old sub
into the main cache. -/
theorem cross_vfo_clobber_witness :
    (⟨true, 145000000, 435000000, [1], [5]⟩ : RigState).connected = true ∧
    strHead (435000000 : ℚ) ≠ strHead (145000000 : ℚ) ∧
    strHead (145000000 : ℚ) ≠ strHead (435000000 : ℚ) ∧
    rig_set_f_main ⟨true, 145000000, 435000000, [1], [5]⟩ 435000000 =
      ⟨true, 435000000, 145000000, [5], [1]⟩ ∧
    rig_set_f_sub ⟨true, 145000000, 435000000, [1], [5]⟩ 145000000 =
      ⟨true, 435000000, 145000000, [5], [1]⟩ :=
  ⟨rfl, by decide, by decide,
   (cross_vfo_clobber ⟨true, 145000000, 435000000, [1], [5]⟩ 435000000 145000000 rfl
     (by decide) (by decide)).1,
   (cross_vfo_clobber ⟨true, 145000000, 435000000, [1], [5]⟩ 435000000 145000000 rfl
     (by decide) (by decide)).2⟩
